import Mathlib

/-!
Verification of the ClawMCP Gateway service bridge against its specification.

The development shallowly embeds the Go sources:
  * `internal/config/config.go` — configuration structures and `Load`'s default rules;
  * the `docker` package (`Manager`) — service lifecycle, environment resolution,
    stdio request/response handling, service listing;
  * the `mcp` package (`Gateway`) — the `readResponse` select-based read path.

Machine integers (`int`) are modelled as `Int`; Go maps keyed by service name are
modelled as association lists; byte streams are modelled either as chunk lists
(what successive `Read` calls return) or as frame lists (already line-split
JSON-RPC response documents), depending on the granularity a property needs.
`map[string]interface{}` payloads that the bridge never inspects (tool input
schemas and examples) are abstracted as key/value association lists.
-/

/-! ## Configuration data model (internal/config/config.go) -/

structure ServerConfig where
  host : String
  port : Int
  deriving DecidableEq, Repr

structure DockerConfig where
  network : String
  imagePrefix : String
  restartPolicy : String
  socketPath : String
  deriving DecidableEq, Repr

structure EnvVar where
  name : String
  value : String
  valueFrom : String
  deriving DecidableEq, Repr

structure HealthCheckConfig where
  enabled : Bool
  interval : String
  url : String
  deriving DecidableEq, Repr

structure MCPTool where
  name : String
  description : String
  inputSchema : List (String × String)
  -- the Go field is named Example; `example` is a Lean keyword
  exampleVal : List (String × String)
  deriving DecidableEq, Repr

structure MCPService where
  name : String
  displayName : String
  description : String
  image : String
  command : String
  args : List String
  env : List EnvVar
  port : Int
  enabled : Bool
  status : String
  tools : List MCPTool
  healthCheck : HealthCheckConfig
  deriving DecidableEq, Repr

structure MCPConfig where
  enabled : List MCPService
  deriving DecidableEq, Repr

structure WebConfig where
  enable : Bool
  port : Int
  title : String
  deriving DecidableEq, Repr

structure Config where
  server : ServerConfig
  docker : DockerConfig
  mcp : MCPConfig
  web : WebConfig
  envFiles : List String
  deriving DecidableEq, Repr

/-- The default-value block of `config.Load` (config.go lines 95-107), applied to the
configuration value produced by the parser.  The parse itself and the `.env`-file side
effects are environment interactions that do not alter the returned structure, so
`Load` on a successfully parsed file returns exactly `applyDefaults` of the parse. -/
def applyDefaults (c : Config) : Config :=
  let c1 := if c.server.port = 0 then { c with server := { c.server with port := 8080 } } else c
  let c2 := if c1.web.port = 0 then { c1 with web := { c1.web with port := 8081 } } else c1
  let c3 := if c2.docker.network = "" then
      { c2 with docker := { c2.docker with network := "clawmcp-network" } } else c2
  if c3.docker.socketPath = "" then
    { c3 with docker := { c3.docker with socketPath := "/var/run/docker.sock" } } else c3

/-! ## Environment-variable resolution (docker package)

`Manager.StartService` resolves the configured environment bindings for the
local-process launch path (part_003 lines 97-110); `Manager.startDockerContainer`
(lines 203-211) and the docker-run fallback (lines 128-137) resolve each value
with a different rule (an `env:` reference overrides the literal).  The two
container loops then differ from each other in what they emit: the
container-create loop appends every binding, empty values included, while the
docker-run fallback appends a `-e` argument only for non-empty values.  `getenv`
models `os.Getenv`, which returns "" for an unset variable. -/

/-- `strings.HasPrefix(s, "env:")`, at the character-list level (the char-list form
is kernel-computable, unlike `String.startsWith`). -/
def hasEnvRef (s : String) : Bool := s.data.take 4 == "env:".data

/-- `strings.TrimPrefix(s, "env:")` for a string that carries the prefix. -/
def envRefVar (s : String) : String := ⟨s.data.drop 4⟩

/-- Value resolution of the local-process path (lines 100-106): the indirect
`env:`-sourced lookup is consulted only when the literal `value` is empty. -/
def resolveEnvValueLocal (getenv : String → String) (e : EnvVar) : String :=
  if e.value = "" ∧ e.valueFrom ≠ "" ∧ hasEnvRef e.valueFrom then
    getenv (envRefVar e.valueFrom)
  else e.value

/-- The local-process environment loop (lines 99-110): a binding is appended to the
child environment only when its resolved value is non-empty. -/
def resolveEnvLocal (getenv : String → String) (vars : List EnvVar) : List (String × String) :=
  vars.filterMap (fun e =>
    let v := resolveEnvValueLocal getenv e
    if v = "" then none else some (e.name, v))

/-- Value resolution of the container paths (lines 206-209 and 130-133): whenever
`valueFrom` carries an `env:` reference it replaces the literal value, even when the
literal is non-empty and even when the referenced variable is unset. -/
def resolveEnvValueDocker (getenv : String → String) (e : EnvVar) : String :=
  if e.valueFrom ≠ "" ∧ hasEnvRef e.valueFrom then
    getenv (envRefVar e.valueFrom)
  else e.value

/-- The container-create environment loop of `startDockerContainer` only
(lines 204-211): every binding is appended, empty resolved values included. -/
def resolveEnvDocker (getenv : String → String) (vars : List EnvVar) : List (String × String) :=
  vars.map (fun e => (e.name, resolveEnvValueDocker getenv e))

/-- The docker-run fallback environment loop (lines 128-137): the same value
resolution as the container-create loop, but a binding is emitted as a `-e`
argument only when its resolved value is non-empty (lines 134-136). -/
def resolveEnvDockerRun (getenv : String → String) (vars : List EnvVar) :
    List (String × String) :=
  vars.filterMap (fun e =>
    let v := resolveEnvValueDocker getenv e
    if v = "" then none else some (e.name, v))

/-- A concrete environment for the C7 counterexample: only `V` is set. -/
def getenvV : String → String := fun v => if v = "V" then "fromenv" else ""

/-! ## The docker-package Manager (part_003)

State model.  `Manager.running` (`map[string]*ProcessInfo`) is an association list
from service name to process info.  A `ProcessInfo` carries, besides the fields
stored by the Go struct (`Name`, the request-id counter `ID`, the stdio handles),
the observable state of those handles: the JSON-RPC documents written to the
child's stdin, the response frames available on its stdout, whether stdout has
reached end-of-stream, the stderr chunks, and — about the operating-system process
the `Cmd` handle points at — whether it is still alive and a distinguishing pid.
The manager code itself never reads `alive`; it is carried to express freshness
and crash behaviour. -/

/-- One JSON-RPC document written to a child's stdin: its method and its `id`
field (`none` for a notification). -/
structure SentDoc where
  method : String
  id : Option Int
  deriving DecidableEq, Repr

/-- One line-framed JSON-RPC response document on a child's stdout: its `id`, its
`result` payload (abstracted as a string) and its optional error message. -/
structure Frame where
  id : Int
  result : String
  error : Option String
  deriving DecidableEq, Repr

structure ProcessInfo where
  name : String
  id : Int
  env : List (String × String)
  stdinLog : List SentDoc
  stdout : List Frame
  stdoutClosed : Bool
  stderr : List String
  alive : Bool
  procId : Nat
  deriving DecidableEq, Repr

/-- One entry of the container engine's `ContainerList` answer: names (each
prefixed with "/"), the engine state string, and published public ports. -/
structure DockerContainer where
  names : List String
  state : String
  ports : List Int
  deriving DecidableEq, Repr

structure ManagerState where
  config : Config
  hasDocker : Bool
  running : List (String × ProcessInfo)
  nextProc : Nat
  deriving DecidableEq, Repr

def lookupProc (l : List (String × ProcessInfo)) (n : String) : Option ProcessInfo :=
  (l.find? (fun q => q.1 == n)).map (fun q => q.2)

def updateProc (s : ManagerState) (n : String) (p : ProcessInfo) : ManagerState :=
  { s with running := s.running.map (fun q => if q.1 == n then (n, p) else q) }

def removeProc (l : List (String × ProcessInfo)) (n : String) : List (String × ProcessInfo) :=
  l.filter (fun q => !(q.1 == n))

def countProc (l : List (String × ProcessInfo)) (n : String) : Nat :=
  (l.filter (fun q => q.1 == n)).length

/-- Config lookup of `Manager.StartService` (lines 77-87): the first enabled
service with the requested name. -/
def findService (cfg : Config) (n : String) : Option MCPService :=
  cfg.mcp.enabled.find? (fun svc => svc.name == n)

/-- The launch dispatch of `Manager.StartService` (lines 112-140). -/
inductive LaunchKind where
  | localCommand
  | uvxImage
  | dockerContainer
  | dockerRunFallback
  deriving DecidableEq, Repr

def launchKind (hasDocker : Bool) (svc : MCPService) : LaunchKind :=
  if svc.command ≠ "" then .localCommand
  else if svc.image.data.take 4 == "uvx ".data then .uvxImage
  else if hasDocker then .dockerContainer
  else .dockerRunFallback

inductive StartResult where
  | ok
  | notFound
  deriving DecidableEq, Repr

/-- The `ProcessInfo` registered by `Manager.StartService` (lines 168-177): request
counter `ID` starts at 1, pipes freshly attached. -/
def newProcess (getenv : String → String) (svc : MCPService) (pid : Nat) : ProcessInfo :=
  { name := svc.name, id := 1, env := resolveEnvLocal getenv svc.env,
    stdinLog := [], stdout := [], stdoutClosed := false, stderr := [],
    alive := true, procId := pid }

/-- `Manager.StartService` (lines 73-183): config lookup; no-op success when the
name is already in the running map; otherwise resolve the environment, dispatch on
launch kind and, for the stdio-backed kinds, spawn and register a fresh process.
The docker-container branch (line 125) only touches the container engine, never
the running map; engine-side create/start failures are outside this model. -/
def startService (getenv : String → String) (s : ManagerState) (n : String) :
    StartResult × ManagerState :=
  match findService s.config n with
  | none => (.notFound, s)
  | some svc =>
    if (lookupProc s.running n).isSome then (.ok, s)
    else
      match launchKind s.hasDocker svc with
      | .dockerContainer => (.ok, s)
      | _ =>
        (.ok, { s with running := s.running ++ [(n, newProcess getenv svc s.nextProc)],
                       nextProc := s.nextProc + 1 })

/-- The protocol writes of the `initAndServe` goroutine (lines 246-275): the
`initialize` request is written with a hard-coded id 1 and the `initialized`
notification with no id; the goroutine never reads stdout and never touches the
`ID` counter. -/
def initAndServeWrites (s : ManagerState) (n : String) : ManagerState :=
  match lookupProc s.running n with
  | none => s
  | some p =>
    updateProc s n { p with stdinLog :=
      p.stdinLog ++ [⟨"initialize", some 1⟩, ⟨"notifications/initialized", none⟩] }

inductive CallResult where
  | notRunning
  | ok (result : String)
  | mcpError (msg : String)
  | unmarshalError
  | blocked
  deriving DecidableEq, Repr

/-- The send half of `Manager.CallTool` (lines 475-495): the `tools/call` request
is written with the current `ID`, which is then incremented.  Returns the id used. -/
def callToolSend (s : ManagerState) (n : String) : Option Int × ManagerState :=
  match lookupProc s.running n with
  | none => (none, s)
  | some p =>
    (some p.id,
     updateProc s n { p with id := p.id + 1,
                             stdinLog := p.stdinLog ++ [⟨"tools/call", some p.id⟩] })

/-- The receive half of `Manager.CallTool` (lines 497-513): a single `Read` of the
child's stdout.  The first available frame — whatever its `id` — is taken as the
response; no id comparison is performed.  On end-of-stream the `io.EOF` error is
ignored and `json.Unmarshal` of the empty buffer fails; with the stream open and
empty the `Read` blocks and the call never returns. -/
def callToolRecv (s : ManagerState) (n : String) : CallResult × ManagerState :=
  match lookupProc s.running n with
  | none => (.notRunning, s)
  | some p =>
    match p.stdout with
    | f :: rest =>
      let s1 := updateProc s n { p with stdout := rest }
      match f.error with
      | some m => (.mcpError m, s1)
      | none => (.ok f.result, s1)
    | [] => if p.stdoutClosed then (.unmarshalError, s) else (.blocked, s)

/-- `Manager.CallTool` (lines 466-514): running-map lookup, then the send and
receive halves in sequence.  Nothing is locked between the write and the read, so
under concurrency the two halves of different calls interleave freely. -/
def callTool (s : ManagerState) (n : String) : CallResult × ManagerState :=
  match lookupProc s.running n with
  | none => (.notRunning, s)
  | some _ => callToolRecv (callToolSend s n).2 n

/-- Environment event: the backend writes one response line, which becomes
available on the service's stdout. -/
def deliver (s : ManagerState) (n : String) (f : Frame) : ManagerState :=
  match lookupProc s.running n with
  | none => s
  | some p => updateProc s n { p with stdout := p.stdout ++ [f] }

/-- Environment event: the backend closes its output stream. -/
def closeStdout (s : ManagerState) (n : String) : ManagerState :=
  match lookupProc s.running n with
  | none => s
  | some p => updateProc s n { p with stdoutClosed := true }

/-- Environment event: the backend process exits (crash).  No code in the docker
package watches the child or its pipes, so the manager's registry is unchanged:
only the process's own liveness and stream state move. -/
def crash (s : ManagerState) (n : String) : ManagerState :=
  match lookupProc s.running n with
  | none => s
  | some p => updateProc s n { p with alive := false, stdoutClosed := true }

def findContainer (cs : List DockerContainer) (containerName : String) :
    Option DockerContainer :=
  cs.find? (fun c => c.names.headD "" == "/" ++ containerName)

inductive StopResult where
  | ok
  | notFound
  deriving DecidableEq, Repr

/-- `Manager.StopService` (lines 371-398): when the name is in the running map the
process is shut down and the entry deleted; otherwise, with a docker client, the
matching container is stopped engine-side; otherwise an error. -/
def stopService (s : ManagerState) (cs : List DockerContainer) (n : String) :
    StopResult × ManagerState :=
  match lookupProc s.running n with
  | some _ => (.ok, { s with running := removeProc s.running n })
  | none =>
    if s.hasDocker then
      match findContainer cs ("clawmcp-" ++ n) with
      | some _ => (.ok, s)
      | none => (.notFound, s)
    else (.notFound, s)

/-- `Manager.RemoveService` (lines 400-424): stop (result ignored), then
engine-side container removal; the manager state change is the stop's. -/
def removeService (s : ManagerState) (cs : List DockerContainer) (n : String) : ManagerState :=
  (stopService s cs n).2

/-- `Manager.GetContainerLogs` (lines 516-551): for a running process, one `Read`
of its stderr; otherwise the engine's container logs (engine-side only). -/
def getContainerLogs (s : ManagerState) (n : String) : Option String × ManagerState :=
  match lookupProc s.running n with
  | some p =>
    match p.stderr with
    | c :: rest => (some c, updateProc s n { p with stderr := rest })
    | [] => (some "", s)
  | none => (none, s)

/-- Status computation of `Manager.GetServices`, first loop (lines 430-440): the Go
code writes the live status through a pointer into `m.config.MCP.Enabled[i]` and
then appends a copy, so this list is both the result base and the new config
content. -/
def liveStatus (running : List (String × ProcessInfo)) (svc : MCPService) : MCPService :=
  { svc with status := if (lookupProc running svc.name).isSome then "running" else "stopped" }

/-- Docker supplement of `Manager.GetServices` (lines 443-461): the first container
named `/clawmcp-<name>` overrides the status with the engine's state string
verbatim and, when it publishes ports, the port; this acts on the result copies
only. -/
def dockerSupplement (cs : List DockerContainer) (svc : MCPService) : MCPService :=
  match findContainer cs ("clawmcp-" ++ svc.name) with
  | some c =>
    { svc with status := c.state,
               port := match c.ports.head? with
                       | some q => q
                       | none => svc.port }
  | none => svc

/-- `Manager.GetServices` (lines 426-464): returns the service list and the
manager state after the call.  The first loop's status writes land in the shared
config (see `liveStatus`); the docker supplement is applied to the returned copies
when a docker client is present. -/
def getServicesM (s : ManagerState) (cs : List DockerContainer) :
    List MCPService × ManagerState :=
  let base := s.config.mcp.enabled.map (liveStatus s.running)
  let result := if s.hasDocker then base.map (dockerSupplement cs) else base
  (result, { s with config := { s.config with mcp := { enabled := base } } })

/-! ## The mcp-package Gateway read path (part_002) -/

inductive ReadRespResult where
  | ctxCancelled
  | timeoutExpired
  | parsed (f : Frame)
  | readError
  | blocked
  deriving DecidableEq, Repr

/-- `Gateway.readResponse` (part_002 lines 274-299).  The Go `select` carries a
`default` branch, so it polls: the `ctx.Done()` case fires only when the context
is already cancelled on entry, the `time.After(30s)` timer is freshly created and
therefore never ready at poll time, and otherwise the `default` branch runs
`ReadBytes('\n')`, which blocks until a full line or end-of-stream.  The
`timeoutExpired` outcome is consequently unreachable. -/
def readResponse (ctxDone : Bool) (stdout : List Frame) (closed : Bool) : ReadRespResult :=
  if ctxDone then .ctxCancelled
  else
    match stdout with
    | f :: _ => .parsed f
    | [] => if closed then .readError else .blocked

/-! ## Transport framing at the byte level

For the framing property the streams are modelled as the chunk sequences that
successive `Read` calls return: the pipe may split one written line across
several chunks. -/

/-- Every request write in the sources is one marshalled JSON document plus a
single appended newline: `p.Stdin.Write(append(data, byte 10))`. -/
def transportWrite (doc : String) : String := doc ++ "\n"

/-- The read of `Manager.CallTool` (lines 497-507) and `Manager.handleToolCall`
(lines 363-368): a single `Read` into a fixed buffer; the bytes of that one read,
`buf[:n]`, are handed directly to `json.Unmarshal`. -/
def managerReadInput (chunks : List String) : String := chunks.headD ""

/-- A complete response document (braces and quotes written as escapes). -/
def fullResponseDoc : String := "\x7b\x22id\x22:2,\x22result\x22:7\x7d"

/-- The same document as it may arrive from the pipe: split across two reads,
the newline only in the second chunk. -/
def splitChunks : List String := ["\x7b\x22id\x22:2,\x22re", "sult\x22:7\x7d\n"]

/-! ## Concrete scenario: one configured stdio service "s" -/

def getenvEmpty : String → String := fun _ => ""

def svcS : MCPService :=
  { name := "s", displayName := "S", description := "", image := "", command := "cmd",
    args := [], env := [], port := 3001, enabled := true, status := "", tools := [],
    healthCheck := { enabled := false, interval := "", url := "" } }

def cfgS : Config :=
  { server := { host := "", port := 8080 },
    docker := { network := "clawmcp-network", imagePrefix := "", restartPolicy := "",
                socketPath := "/var/run/docker.sock" },
    mcp := { enabled := [svcS] },
    web := { enable := false, port := 8081, title := "" },
    envFiles := [] }

/-- A manager without a docker client (process mode). -/
def mgr0 : ManagerState := { config := cfgS, hasDocker := false, running := [], nextProc := 0 }

/-- After `StartService("s")`. -/
def mgr1 : ManagerState := (startService getenvEmpty mgr0 "s").2

/-- Caller A has sent its `tools/call` (draws id 1). -/
def mgrA : ManagerState := (callToolSend mgr1 "s").2

/-- Caller B has sent its `tools/call` concurrently (draws id 2). -/
def mgrB : ManagerState := (callToolSend mgrA "s").2

/-- The scripted backend replies out of send order: the response addressed to id 2
first, then the one addressed to id 1. -/
def mgrReplies : ManagerState :=
  deliver (deliver mgrB "s" ⟨2, "payload-for-2", none⟩) "s" ⟨1, "payload-for-1", none⟩

/-- The written protocol documents of service `n`. -/
def sentDocs (s : ManagerState) (n : String) : List SentDoc :=
  ((lookupProc s.running n).map (fun p => p.stdinLog)).getD []

/-- A manager with a docker client, same configuration. -/
def mgrD : ManagerState := { config := cfgS, hasDocker := true, running := [], nextProc := 0 }

/-- A container for service "s" that the engine reports as exited. -/
def cExited : DockerContainer := { names := ["/clawmcp-s"], state := "exited", ports := [] }

/-- Re-keys a service descriptor with its status cleared, to state that an
operation alters no descriptor field other than the status. -/
def eraseStatus (svc : MCPService) : MCPService := { svc with status := "" }

/-! ## Theorems -/

/-- C10: `Load` applies exactly the four documented defaults — a `server.port` of 0
becomes 8080, a `web.port` of 0 becomes 8081, an empty `docker.network` becomes
"clawmcp-network", an empty `docker.socketPath` becomes "/var/run/docker.sock" —
non-zero values of those fields are kept, and every other field is returned exactly
as parsed. -/
theorem load_defaults (c : Config) :
    (applyDefaults c).server.port = (if c.server.port = 0 then 8080 else c.server.port) ∧
    (applyDefaults c).web.port = (if c.web.port = 0 then 8081 else c.web.port) ∧
    (applyDefaults c).docker.network =
      (if c.docker.network = "" then "clawmcp-network" else c.docker.network) ∧
    (applyDefaults c).docker.socketPath =
      (if c.docker.socketPath = "" then "/var/run/docker.sock" else c.docker.socketPath) ∧
    (applyDefaults c).server.host = c.server.host ∧
    (applyDefaults c).docker.imagePrefix = c.docker.imagePrefix ∧
    (applyDefaults c).docker.restartPolicy = c.docker.restartPolicy ∧
    (applyDefaults c).mcp = c.mcp ∧
    (applyDefaults c).web.enable = c.web.enable ∧
    (applyDefaults c).web.title = c.web.title ∧
    (applyDefaults c).envFiles = c.envFiles := by
  unfold applyDefaults
  split <;> split <;> split <;> split <;> simp_all

/-- C7 counterexample: on the container launch paths the claim fails at a concrete
binding.  A binding with literal value "lit" and indirect reference `env:V` (with V
set to "fromenv") is resolved to "fromenv" — the indirect value overrides the
literal, where the claim requires the literal to take precedence (this value rule
is shared by both container loops); and in the container-create loop a binding
whose `env:U` reference is unset is emitted as an empty-valued binding instead of
being omitted. -/
theorem dockerEnv_overrides_literal :
    resolveEnvDocker getenvV
        [⟨"K", "lit", "env:V"⟩, ⟨"L", "", "env:U"⟩] = [("K", "fromenv"), ("L", "")] ∧
    ("fromenv" : String) ≠ "lit" ∧
    resolveEnvDockerRun getenvV [⟨"K", "lit", "env:V"⟩] = [("K", "fromenv")] := by
  refine ⟨?_, by decide, ?_⟩ <;> decide

/-- C7 amended: on the local-process launch path a literal value takes precedence
over an indirect `env:`-sourced value and bindings whose resolved value is empty
(in particular, unresolved indirect references) are omitted without error.  On
both container launch paths an `env:` reference instead overrides the literal,
even a non-empty one; the container-create loop then includes every binding —
unresolved references appear as empty-valued bindings — while the docker-run
fallback omits empty-valued bindings as the local path does. -/
theorem env_resolution_paths (getenv : String → String) (e : EnvVar) (vars : List EnvVar) :
    (e.value ≠ "" → resolveEnvValueLocal getenv e = e.value) ∧
    (∀ p ∈ resolveEnvLocal getenv vars, p.2 ≠ "") ∧
    (hasEnvRef e.valueFrom = true →
      resolveEnvValueDocker getenv e = getenv (envRefVar e.valueFrom)) ∧
    (resolveEnvDocker getenv vars).length = vars.length ∧
    (∀ p ∈ resolveEnvDockerRun getenv vars, p.2 ≠ "") := by
  refine ⟨?_, ?_, ?_, ?_, ?_⟩
  · intro hv
    unfold resolveEnvValueLocal
    rw [if_neg]
    intro h
    exact hv h.1
  · intro p hp
    unfold resolveEnvLocal at hp
    rcases List.mem_filterMap.mp hp with ⟨e1, _, he1⟩
    by_cases h : resolveEnvValueLocal getenv e1 = ""
    · simp [h] at he1
    · simp [h] at he1
      rw [← he1]
      exact h
  · intro hpre
    unfold resolveEnvValueDocker
    rw [if_pos]
    refine ⟨?_, hpre⟩
    intro hempty
    rw [hempty] at hpre
    exact absurd hpre (by decide)
  · unfold resolveEnvDocker
    exact List.length_map _ _
  · intro p hp
    unfold resolveEnvDockerRun at hp
    rcases List.mem_filterMap.mp hp with ⟨e1, _, he1⟩
    by_cases h : resolveEnvValueDocker getenv e1 = ""
    · simp [h] at he1
    · simp [h] at he1
      rw [← he1]
      exact h

/-- Witness for `env_resolution_paths` at a concrete environment and bindings. -/
theorem env_resolution_paths_witness :
    ("lit" : String) ≠ "" ∧
    resolveEnvValueLocal getenvV ⟨"K", "lit", "env:V"⟩ = "lit" ∧
    (∀ p ∈ resolveEnvLocal getenvV [⟨"K", "lit", "env:V"⟩, ⟨"L", "", "env:U"⟩], p.2 ≠ "") ∧
    (hasEnvRef "env:V" = true) ∧
    resolveEnvValueDocker getenvV ⟨"K", "lit", "env:V"⟩ = getenvV (envRefVar "env:V") ∧
    (resolveEnvDocker getenvV [⟨"K", "lit", "env:V"⟩, ⟨"L", "", "env:U"⟩]).length = 2 ∧
    (∀ p ∈ resolveEnvDockerRun getenvV [⟨"K", "lit", "env:V"⟩, ⟨"L", "", "env:U"⟩],
      p.2 ≠ "") := by
  have h := env_resolution_paths getenvV ⟨"K", "lit", "env:V"⟩
      [⟨"K", "lit", "env:V"⟩, ⟨"L", "", "env:U"⟩]
  exact ⟨by decide, h.1 (by decide), h.2.1, by decide, h.2.2.1 (by decide), h.2.2.2.1,
    h.2.2.2.2⟩

/-- C1: with two concurrent `CallTool` invocations and a backend replying out of
send order, the read step delivers the first available frame without comparing
ids, so the caller that sent request id 1 receives the payload addressed to id 2 —
responses are misrouted between concurrent callers. -/
theorem callTool_misroutes_out_of_order :
    (callToolSend mgr1 "s").1 = some 1 ∧
    (callToolSend mgrA "s").1 = some 2 ∧
    (callToolRecv mgrReplies "s").1 = CallResult.ok "payload-for-2" ∧
    CallResult.ok "payload-for-2" ≠ CallResult.ok "payload-for-1" := by
  decide

/-- C2: the write side emits one newline-terminated document per write, but the
read side hands the bytes of a single `Read` to the JSON parser: when the complete
line `transportWrite fullResponseDoc` arrives split across two reads, the code
parses the first chunk — a nonempty strict prefix of the line with no newline in
it — instead of buffering until the newline arrives. -/
theorem callTool_parses_partial_read :
    String.join splitChunks = transportWrite fullResponseDoc ∧
    managerReadInput splitChunks ≠ "" ∧
    (managerReadInput splitChunks).data.contains '\n' = false ∧
    (managerReadInput splitChunks).data.isPrefixOf (transportWrite fullResponseDoc).data = true ∧
    managerReadInput splitChunks ≠ transportWrite fullResponseDoc := by
  decide

/-- C3: the `initialize` request is written with a hard-coded id 1 while the
`ProcessInfo` counter also starts at 1 and is never consumed by the handshake, so
the first `tools/call` of the session is sent carrying id 1 — the same id as the
(still unanswered) `initialize` request. -/
theorem first_toolcall_reuses_init_id :
    sentDocs (callToolSend (initAndServeWrites mgr1 "s") "s").2 "s" =
      [⟨"initialize", some 1⟩, ⟨"notifications/initialized", none⟩,
       ⟨"tools/call", some 1⟩] ∧
    (sentDocs (callToolSend (initAndServeWrites mgr1 "s") "s").2 "s").map SentDoc.id =
      [some 1, none, some 1] := by
  decide

/-- C4: against a backend that never responds, `Manager.CallTool` blocks
indefinitely in `Read` (it has no timeout parameter at all), and
`Gateway.readResponse`'s select carries a `default` branch, so its 30-second
timeout case is unreachable: no `Timeout` error is ever produced. -/
theorem callTool_never_times_out :
    (callTool mgr1 "s").1 = CallResult.blocked ∧
    readResponse false [] false = ReadRespResult.blocked ∧
    (∀ d st c, readResponse d st c ≠ ReadRespResult.timeoutExpired) := by
  refine ⟨by decide, by decide, ?_⟩
  intro d st c
  cases d
  · cases st
    · cases c <;> simp [readResponse]
    · simp [readResponse]
  · simp [readResponse]

/-- C6: after `StopService` the registry entry is gone and `CallTool` fails
immediately with the not-running error, leaving the state untouched; but after the
backend's stream has closed without a stop, the stale entry remains and `CallTool`
returns a JSON-unmarshal error from the empty read instead of the not-running
error. -/
theorem callTool_after_stop_and_close :
    (stopService mgr1 [] "s").1 = StopResult.ok ∧
    (callTool (stopService mgr1 [] "s").2 "s").1 = CallResult.notRunning ∧
    (callTool (stopService mgr1 [] "s").2 "s").2 = (stopService mgr1 [] "s").2 ∧
    (callTool (closeStdout mgr1 "s") "s").1 = CallResult.unmarshalError ∧
    CallResult.unmarshalError ≠ CallResult.notRunning := by
  decide

/-- C5 counterexample: after the backend of "s" has crashed (the session has
failed), `StartService` is a no-op success on the stale registry entry — the dead
process (procId 0, alive = false) stays registered and no fresh session is
created, where the claim requires a fresh session. -/
theorem startService_after_crash_no_fresh_session :
    (startService getenvEmpty (crash mgr1 "s") "s").1 = StartResult.ok ∧
    (startService getenvEmpty (crash mgr1 "s") "s").2 = crash mgr1 "s" ∧
    ((lookupProc (crash mgr1 "s").running "s").map ProcessInfo.alive) = some false ∧
    ((lookupProc (crash mgr1 "s").running "s").map ProcessInfo.procId) = some 0 := by
  decide

/-- C8 counterexample: with live status derived from the container engine,
`GetServices` copies the engine's state string verbatim, so a service whose
container has exited is listed with status "exited" — outside the claimed set
{stopped, starting, running, failed}. -/
theorem getServices_reports_engine_state :
    ((getServicesM mgrD [cExited]).1.map MCPService.status) = ["exited"] ∧
    ("exited" ∉ (["stopped", "starting", "running", "failed"] : List String)) := by
  decide

/-- C9 counterexample: `GetServices` writes the live status through a pointer into
the loaded configuration, so the configured service descriptor's `status` field is
"" before the call and "stopped" after it — the operation modifies the
configuration. -/
theorem getServices_mutates_config_status :
    mgr0.config.mcp.enabled.map MCPService.status = [""] ∧
    (getServicesM mgr0 []).2.config.mcp.enabled.map MCPService.status = ["stopped"] ∧
    (getServicesM mgr0 []).2.config ≠ mgr0.config := by
  decide

/-! ## Helper lemmas about the running map -/

theorem lookupProc_append_right (l : List (String × ProcessInfo)) (n : String)
    (p : ProcessInfo) (h : lookupProc l n = none) :
    lookupProc (l ++ [(n, p)]) n = some p := by
  unfold lookupProc at h ⊢
  rw [Option.map_eq_none'] at h
  rw [List.find?_append, h]
  simp [List.find?]

theorem countProc_append_self (l : List (String × ProcessInfo)) (n : String) (p : ProcessInfo) :
    countProc (l ++ [(n, p)]) n = countProc l n + 1 := by
  unfold countProc
  rw [List.filter_append, List.length_append]
  simp [List.filter]

theorem countProc_eq_zero (l : List (String × ProcessInfo)) (n : String)
    (h : lookupProc l n = none) : countProc l n = 0 := by
  unfold lookupProc at h
  rw [Option.map_eq_none'] at h
  unfold countProc
  rw [List.length_eq_zero]
  exact List.filter_eq_nil_iff.mpr (fun a ha => by
    simpa using List.find?_eq_none.mp h a ha)

theorem countProc_pos (l : List (String × ProcessInfo)) (n : String) (p : ProcessInfo)
    (h : lookupProc l n = some p) : 1 ≤ countProc l n := by
  unfold lookupProc at h
  rcases Option.map_eq_some'.mp h with ⟨q, hq, _⟩
  have hmem : q ∈ l.filter (fun r => r.1 == n) :=
    List.mem_filter.mpr ⟨List.mem_of_find?_eq_some hq,
      @List.find?_some _ (fun r => r.1 == n) q l hq⟩
  exact List.length_pos_of_mem hmem

theorem lookupProc_remove (l : List (String × ProcessInfo)) (n : String) :
    lookupProc (removeProc l n) n = none := by
  unfold lookupProc removeProc
  rw [Option.map_eq_none', List.find?_eq_none]
  intro x hx
  have hne := (List.mem_filter.mp hx).2
  simp at hne
  simp [hne]

/-! ## Branch-evaluation lemmas for the manager operations -/

theorem startService_when_running (g : String → String) (s : ManagerState) (n : String)
    (svc : MCPService) (p : ProcessInfo)
    (hfind : findService s.config n = some svc) (hsome : lookupProc s.running n = some p) :
    startService g s n = (.ok, s) := by
  unfold startService
  rw [hfind, hsome]
  rfl

theorem startService_when_absent (g : String → String) (s : ManagerState) (n : String)
    (svc : MCPService) (hfind : findService s.config n = some svc)
    (hnone : lookupProc s.running n = none) (hcmd : svc.command ≠ "") :
    startService g s n =
      (.ok, { s with running := s.running ++ [(n, newProcess g svc s.nextProc)],
                     nextProc := s.nextProc + 1 }) := by
  unfold startService
  rw [hfind, hnone]
  have hk : launchKind s.hasDocker svc = .localCommand := by
    unfold launchKind
    rw [if_pos hcmd]
  simp [hk]

theorem stopService_when_running (s : ManagerState) (cs : List DockerContainer) (n : String)
    (p : ProcessInfo) (hsome : lookupProc s.running n = some p) :
    stopService s cs n = (.ok, { s with running := removeProc s.running n }) := by
  unfold stopService
  rw [hsome]

theorem start_after_stop (g : String → String) (s1 : ManagerState) (n : String)
    (svc : MCPService) (p1 : ProcessInfo)
    (hfind : findService s1.config n = some svc) (hcmd : svc.command ≠ "")
    (hsome : lookupProc s1.running n = some p1) :
    ∃ p, lookupProc (startService g (stopService s1 [] n).2 n).2.running n = some p ∧
      p.id = 1 ∧ p.procId = s1.nextProc := by
  rw [stopService_when_running s1 [] n p1 hsome]
  have hrem : lookupProc (removeProc s1.running n) n = none := lookupProc_remove s1.running n
  have h2 := startService_when_absent g
      { s1 with running := removeProc s1.running n } n svc hfind hrem hcmd
  dsimp only
  rw [h2]
  exact ⟨newProcess g svc s1.nextProc, lookupProc_append_right _ _ _ hrem, rfl, rfl⟩

/-- C5 amended: `StartService` is idempotent on the registry: for a configured
stdio service, calling it twice in a row yields two successful results, the second
call is a no-op, and exactly one process is registered; after `StopService` a
subsequent `StartService` registers a fresh session (request counter back at 1,
process identity distinct from every previously registered process).  However the
code has no `Failed` state: a backend crash leaves the stale entry registered, and
`StartService` after a crash is a no-op success on the dead process rather than
creating a fresh session (see the counterexample). -/
theorem startService_idempotent (g : String → String) (s : ManagerState) (n : String)
    (svc : MCPService) (hfind : findService s.config n = some svc) (hcmd : svc.command ≠ "")
    (hone : countProc s.running n ≤ 1)
    (hinv : ∀ q ∈ s.running, q.2.procId < s.nextProc) :
    (startService g s n).1 = .ok ∧
    startService g (startService g s n).2 n = (.ok, (startService g s n).2) ∧
    countProc (startService g s n).2.running n = 1 ∧
    ∃ p, lookupProc
        (startService g (stopService (startService g s n).2 [] n).2 n).2.running n = some p ∧
      p.id = 1 ∧ s.nextProc ≤ p.procId ∧ ∀ q ∈ s.running, q.2.procId ≠ p.procId := by
  rcases hl : lookupProc s.running n with _ | p0
  · -- the service is not yet registered: the first call registers it
    have h1 := startService_when_absent g s n svc hfind hl hcmd
    have hfind1 : findService (startService g s n).2.config n = some svc := by
      rw [h1]; exact hfind
    have hl1 : lookupProc (startService g s n).2.running n =
        some (newProcess g svc s.nextProc) := by
      rw [h1]; exact lookupProc_append_right _ _ _ hl
    have hnext1 : (startService g s n).2.nextProc = s.nextProc + 1 := by
      rw [h1]
    refine ⟨by rw [h1], startService_when_running g _ n svc _ hfind1 hl1, ?_, ?_⟩
    · rw [h1]
      dsimp only
      rw [countProc_append_self, countProc_eq_zero _ _ hl]
    · rcases start_after_stop g (startService g s n).2 n svc _ hfind1 hcmd hl1 with
        ⟨p, hp, hid, hpid⟩
      refine ⟨p, hp, hid, ?_, ?_⟩
      · rw [hpid, hnext1]
        exact Nat.le_succ _
      · intro q hq
        have := hinv q hq
        rw [hpid, hnext1]
        omega
  · -- the service is already registered: both calls are no-ops
    have h1 := startService_when_running g s n svc p0 hfind hl
    have hfind1 : findService (startService g s n).2.config n = some svc := by
      rw [h1]; exact hfind
    have hl1 : lookupProc (startService g s n).2.running n = some p0 := by
      rw [h1]; exact hl
    have hnext1 : (startService g s n).2.nextProc = s.nextProc := by
      rw [h1]
    refine ⟨by rw [h1], startService_when_running g _ n svc p0 hfind1 hl1, ?_, ?_⟩
    · rw [h1]
      exact Nat.le_antisymm hone (countProc_pos _ _ _ hl)
    · rcases start_after_stop g (startService g s n).2 n svc p0 hfind1 hcmd hl1 with
        ⟨p, hp, hid, hpid⟩
      refine ⟨p, hp, hid, ?_, ?_⟩
      · rw [hpid, hnext1]
      · intro q hq
        have := hinv q hq
        rw [hpid, hnext1]
        omega

/-- C8 amended: every status returned by `GetServices` is either a process-mode
status — "running" or "stopped", a strict subset of the claimed set — or, for a
service with a matching container, the container engine's state string copied
verbatim, which ranges over the engine's own states (such as "exited") and is not
restricted to the four claimed statuses stopped, starting, running, failed. -/
theorem getServices_status_range (s : ManagerState) (cs : List DockerContainer)
    (svc : MCPService) (hmem : svc ∈ (getServicesM s cs).1) :
    svc.status = "running" ∨ svc.status = "stopped" ∨ ∃ c ∈ cs, svc.status = c.state := by
  unfold getServicesM at hmem
  dsimp only at hmem
  have hbase : ∀ b ∈ s.config.mcp.enabled.map (liveStatus s.running),
      b.status = "running" ∨ b.status = "stopped" := by
    intro b hb
    rcases List.mem_map.mp hb with ⟨a, _, ha⟩
    rw [← ha]
    unfold liveStatus
    by_cases hr : (lookupProc s.running a.name).isSome
    · left; simp [hr]
    · right; simp [hr]
  by_cases hd : s.hasDocker
  · rw [if_pos hd] at hmem
    rcases List.mem_map.mp hmem with ⟨b, hb, hsup⟩
    unfold dockerSupplement at hsup
    rcases hc : findContainer cs ("clawmcp-" ++ b.name) with _ | c
    · rw [hc] at hsup
      rw [← hsup]
      rcases hbase b hb with h | h
      · exact Or.inl h
      · exact Or.inr (Or.inl h)
    · rw [hc] at hsup
      refine Or.inr (Or.inr ⟨c, ?_, ?_⟩)
      · exact List.mem_of_find?_eq_some hc
      · rw [← hsup]
  · rw [if_neg hd] at hmem
    rcases hbase svc hmem with h | h
    · exact Or.inl h
    · exact Or.inr (Or.inl h)

/-- Witness for `getServices_status_range` at the docker-backed manager whose
container for "s" is exited. -/
theorem getServices_status_range_witness :
    ({ svcS with status := "exited" } ∈ (getServicesM mgrD [cExited]).1) ∧
    ({ svcS with status := "exited" }.status = "running" ∨
     { svcS with status := "exited" }.status = "stopped" ∨
     ∃ c ∈ [cExited], { svcS with status := "exited" }.status = c.state) :=
  ⟨by decide, getServices_status_range mgrD [cExited] _ (by decide)⟩

/-- C9 amended: `StartService`, `StopService`, `RemoveService`, `CallTool` and
`GetLogs` leave the loaded configuration untouched, and `GetServices` leaves every
per-service field except `status` (and all non-service configuration) unchanged —
but it does overwrite each enabled service's `status` field in the shared
configuration with the live status (see the counterexample). -/
theorem bridge_config_frame (g : String → String) (s : ManagerState)
    (cs : List DockerContainer) (n : String) :
    (startService g s n).2.config = s.config ∧
    (stopService s cs n).2.config = s.config ∧
    (removeService s cs n).config = s.config ∧
    (callTool s n).2.config = s.config ∧
    (getContainerLogs s n).2.config = s.config ∧
    (getServicesM s cs).2.config.mcp.enabled.map eraseStatus =
      s.config.mcp.enabled.map eraseStatus ∧
    (getServicesM s cs).2.config.server = s.config.server ∧
    (getServicesM s cs).2.config.docker = s.config.docker ∧
    (getServicesM s cs).2.config.web = s.config.web ∧
    (getServicesM s cs).2.config.envFiles = s.config.envFiles := by
  have hstop : (stopService s cs n).2.config = s.config := by
    unfold stopService
    split
    · rfl
    · split
      · split <;> rfl
      · rfl
  have hsend : (callToolSend s n).2.config = s.config := by
    unfold callToolSend
    split <;> rfl
  have hrecv : ∀ t : ManagerState, (callToolRecv t n).2.config = t.config := by
    intro t
    unfold callToolRecv
    split
    · rfl
    · split
      · split <;> rfl
      · split <;> rfl
  have hmap : (getServicesM s cs).2.config.mcp.enabled.map eraseStatus =
      s.config.mcp.enabled.map eraseStatus := by
    unfold getServicesM
    dsimp only
    rw [List.map_map]
    rfl
  refine ⟨?_, hstop, hstop, ?_, ?_, hmap, rfl, rfl, rfl, rfl⟩
  · unfold startService
    split
    · rfl
    · split
      · rfl
      · split <;> rfl
  · unfold callTool
    split
    · rfl
    · rw [hrecv, hsend]
  · unfold getContainerLogs
    split
    · split <;> rfl
    · rfl

/-- Witness for `startService_idempotent` at the concrete one-service manager. -/
theorem startService_idempotent_witness :
    findService mgr0.config "s" = some svcS ∧ svcS.command ≠ "" ∧
    countProc mgr0.running "s" ≤ 1 ∧ (∀ q ∈ mgr0.running, q.2.procId < mgr0.nextProc) ∧
    ((startService getenvEmpty mgr0 "s").1 = .ok ∧
     startService getenvEmpty (startService getenvEmpty mgr0 "s").2 "s" =
       (.ok, (startService getenvEmpty mgr0 "s").2) ∧
     countProc (startService getenvEmpty mgr0 "s").2.running "s" = 1 ∧
     ∃ p, lookupProc
         (startService getenvEmpty
           (stopService (startService getenvEmpty mgr0 "s").2 [] "s").2 "s").2.running "s" =
         some p ∧
       p.id = 1 ∧ mgr0.nextProc ≤ p.procId ∧ ∀ q ∈ mgr0.running, q.2.procId ≠ p.procId) :=
  ⟨by decide, by decide, by decide, by decide,
   startService_idempotent getenvEmpty mgr0 "s" svcS (by decide) (by decide) (by decide)
     (by decide)⟩
